import Mathlib

/-!
Shallow embedding of `bot.py` from the Monster-maker repository.

The program is a single-command Telegram bot: `generate_command` validates
the argument list, sends a transient status message, calls
`get_gemini_response` (which wraps one text-generation call and one
image-generation call, each with its own local exception handling), sends
either a photo reply or a text reply, and finally deletes the status
message.

External services and the chat transport are modelled by oracles: each
external call site is given an `Except String _` outcome (the `String`
being the Python exception's message, since the source only ever uses
`str(e)`).  The handler is embedded as a pure function from the argument
list and the oracles to a `HandlerRun`: the list of chat-API calls it
attempts (the trace), the operator log lines it emits, and its outcome
(`Except.error e` meaning an uncaught Python exception propagates out of
the handler to its caller).
-/

/-- The module-level SYSTEM_PROMPT string of `bot.py` (lines 31-50),
verbatim: a triple-quoted string beginning and ending with a newline. -/
def SYSTEM_PROMPT : String :=
  "\nYou are a Monster Data Generator.\nInput: Name, Element, Rarity.\nRules:\n- Common:    HP: 80-120  | ATK: 10-30   | DEF: 40-60    | SPD: 30-40\n- Rare:      HP: 100-160 | ATK: 30-50   | DEF: 60-80    | SPD: 40-50\n- Epic:      HP: 120-200 | ATK: 50-70   | DEF: 80-110   | SPD: 50-60\n- Legendary: HP: 150-220 | ATK: 70-100  | DEF: 110-150  | SPD: 60-68\n- Mythic:    HP: 200-250 | ATK: 100-130 | DEF: 150-180  | SPD: 68-75\n- Sacred:    HP: 250-300 | ATK: 130-150 | DEF: 180-200  | SPD: 75-90\n\nOutput Format (Strictly No Markdown/Brackets):\nName: \x7bName\x7d\nElement: \x7bElement\x7d\nRarity: \x7bRarity\x7d\nStats: \x7bHP\x7d \x7bATK\x7d \x7bDEF\x7d \x7bSPD\x7d\nMove 1: \x7bMove Name\x7d | \x7bPower\x7d | \x7bAccuracy\x7d\nMove 2: \x7bMove Name\x7d | \x7bPower\x7d | \x7bAccuracy\x7d\nMove 3: \x7bMove Name\x7d | \x7bPower\x7d | \x7bAccuracy\x7d\n"

/-- The six rarity-tier lines of the rule table, exactly as they occur
inside `SYSTEM_PROMPT`. -/
def ruleTable : String :=
  "- Common:    HP: 80-120  | ATK: 10-30   | DEF: 40-60    | SPD: 30-40\n- Rare:      HP: 100-160 | ATK: 30-50   | DEF: 60-80    | SPD: 40-50\n- Epic:      HP: 120-200 | ATK: 50-70   | DEF: 80-110   | SPD: 50-60\n- Legendary: HP: 150-220 | ATK: 70-100  | DEF: 110-150  | SPD: 60-68\n- Mythic:    HP: 200-250 | ATK: 100-130 | DEF: 150-180  | SPD: 68-75\n- Sacred:    HP: 250-300 | ATK: 130-150 | DEF: 180-200  | SPD: 75-90"

/-- The prompt built at line 55 of `bot.py`:
`f"\x7bSYSTEM_PROMPT\x7d\n\nUSER INPUT -> Name: \x7bname\x7d, Element: \x7belement\x7d, Rarity: \x7brarity\x7d"`. -/
def mkPrompt (name element rarity : String) : String :=
  SYSTEM_PROMPT ++ "\n\nUSER INPUT -> Name: " ++ name ++ ", Element: " ++ element
    ++ ", Rarity: " ++ rarity

/-- The image prompt built at line 64 of `bot.py`. -/
def imgPrompt (name element : String) : String :=
  "Generate a image of " ++ element ++ " " ++ name ++ " monster, Quality - 4k, Ratio - 1:1"

/-- Response object of the text model: the source only reads its `.text`
attribute (line 58). -/
structure TxtResponse where
  text : String

/-- Oracle for `TEXT_MODEL.generate_content` (line 57): given the prompt,
either a response object or a raised exception with message `e`. -/
structure TextOracle where
  generate_content : String → Except String TxtResponse

/-- An image object as the source uses it: `img.save(bio, PNG)` (line 68)
either writes PNG bytes into the buffer or raises. -/
structure Img where
  savePNG : Except String (List Nat)

/-- One element of `img_response.parts`; the source reads its `.image`
attribute (line 66). -/
structure ImgPart where
  image : Img

/-- Response object of the image model: the source reads `.parts[0]`
(line 66); indexing an empty list raises an IndexError. -/
structure ImgResponse where
  parts : List ImgPart

/-- Oracle for `IMAGE_MODEL.generate_content` (line 65). -/
structure ImageOracle where
  generate_content : String → Except String ImgResponse

/-- The message Python raises for `parts[0]` on an empty list. -/
def indexErrorMsg : String := "list index out of range"

/-- The in-memory buffer the image path produces: PNG bytes with the read
position, rewound to the start by `bio.seek(0)` (line 69). -/
structure ImgBuf where
  data : List Nat
  pos : Nat
  deriving DecidableEq, Repr

/-- Result of `get_gemini_response`: the `(stats_text, img_bytes)` pair
returned at line 74, together with the `logging.error` lines emitted
(line 72). -/
structure GeminiResult where
  stats_text : String
  img_bytes : Option ImgBuf
  logs : List String
  deriving DecidableEq, Repr

/-- Embedding of `get_gemini_response` (lines 52-77 of `bot.py`).  The
text try/except (lines 56-60) yields either the trimmed response text or
the string `"Error generating text: " ++ e`; the image try/except
(lines 62-72) yields either a rewound PNG buffer or `none` with an
`"Image Error: " ++ e` log line, where the exception may come from the
external call, from `parts[0]` on an empty list, or from PNG encoding. -/
def get_gemini_response (tOr : TextOracle) (iOr : ImageOracle)
    (name element rarity : String) : GeminiResult :=
  let stats_text :=
    match tOr.generate_content (mkPrompt name element rarity) with
    | .ok r => r.text.trim
    | .error e => "Error generating text: " ++ e
  let imgStep : Option ImgBuf × List String :=
    match iOr.generate_content (imgPrompt name element) with
    | .error e => (none, ["Image Error: " ++ e])
    | .ok resp =>
      match resp.parts with
      | [] => (none, ["Image Error: " ++ indexErrorMsg])
      | p :: _ =>
        match p.image.savePNG with
        | .error e => (none, ["Image Error: " ++ e])
        | .ok bs => (some { data := bs, pos := 0 }, [])
  { stats_text := stats_text, img_bytes := imgStep.1, logs := imgStep.2 }

/-- A chat-API call attempted by the handler.  Sends are numbered in the
order they are attempted within one handler run; `delete` carries the
message id passed to `bot.delete_message`. -/
inductive Effect where
  | sendText (id : Nat) (msg : String)
  | sendPhoto (id : Nat) (caption : String)
  | delete (id : Nat)
  deriving DecidableEq, Repr

/-- Oracle for the chat transport: for each `await`ed chat call site in
`generate_command`, `some e` means that call raises an exception with
message `e`, `none` means it succeeds.  `awaitFault` models an unexpected
exception from awaiting `get_gemini_response` itself (the executor
machinery; the two generator calls inside it never raise outward). -/
structure ChatOracle where
  usageFault : Option String
  statusFault : Option String
  awaitFault : Option String
  photoFault : Option String
  textFault : Option String
  criticalFault : Option String
  deleteFault : Option String

/-- One run of the handler: the chat calls attempted in order, the log
lines emitted, and `Except.error e` when an exception escapes the
handler to its caller. -/
structure HandlerRun where
  trace : List Effect
  logs : List String
  outcome : Except String Unit
  deriving Repr

/-- The usage-warning reply text (line 87 of `bot.py`). -/
def usageText : String := "⚠️ Usage: `/generate [Name] [Element] [Rarity]`"

/-- The transient status-message text (line 91 of `bot.py`). -/
def summoningText (name : String) : String := "⚡ Summoning " ++ name ++ "..."

/-- The generic error reply of the top-level except (line 102). -/
def criticalText (e : String) : String := "Critical Error: " ++ e

/-- The guard of line 86: `not context.args or len(context.args) < 3`
(`context.args` may be `None` or a possibly-empty list). -/
def argsInvalid : Option (List String) → Bool
  | none => true
  | some l => l.isEmpty || l.length < 3

/-- Line 104 of `bot.py`: the `delete_message` call on the status
message, attempted after the try/except and NOT wrapped in any handler —
a raised exception propagates out of `generate_command`. -/
def deleteStep (tr : List Effect) (lg : List String) (sid : Nat)
    (cOr : ChatOracle) : HandlerRun :=
  match cOr.deleteFault with
  | some e => { trace := tr ++ [.delete sid], logs := lg, outcome := .error e }
  | none => { trace := tr ++ [.delete sid], logs := lg, outcome := .ok () }

/-- Embedding of `generate_command` (lines 85-104 of `bot.py`).  Control
flow mirrors the source: argument guard and early return (86-88); status
message (91); try block awaiting `get_gemini_response` and sending the
photo or text reply (93-99); top-level except sending the critical-error
reply (101-102); unprotected status deletion (104).  Message ids number
the send attempts of the run, so the status message has id 0. -/
def generate_command (args : Option (List String)) (cOr : ChatOracle)
    (tOr : TextOracle) (iOr : ImageOracle) : HandlerRun :=
  if argsInvalid args then
    match cOr.usageFault with
    | some e => { trace := [.sendText 0 usageText], logs := [], outcome := .error e }
    | none => { trace := [.sendText 0 usageText], logs := [], outcome := .ok () }
  else
    let l := args.getD []
    let name := l.getD 0 ""
    let element := l.getD 1 ""
    let rarity := l.getD 2 ""
    match cOr.statusFault with
    | some e => { trace := [.sendText 0 (summoningText name)], logs := [], outcome := .error e }
    | none =>
      let st : Effect := .sendText 0 (summoningText name)
      match cOr.awaitFault with
      | some e =>
        match cOr.criticalFault with
        | some e2 =>
          { trace := [st, .sendText 1 (criticalText e)], logs := [], outcome := .error e2 }
        | none => deleteStep [st, .sendText 1 (criticalText e)] [] 0 cOr
      | none =>
        let r := get_gemini_response tOr iOr name element rarity
        match r.img_bytes with
        | some _ =>
          match cOr.photoFault with
          | none => deleteStep [st, .sendPhoto 1 r.stats_text] r.logs 0 cOr
          | some e =>
            match cOr.criticalFault with
            | some e2 =>
              { trace := [st, .sendPhoto 1 r.stats_text, .sendText 2 (criticalText e)],
                logs := r.logs, outcome := .error e2 }
            | none =>
              deleteStep [st, .sendPhoto 1 r.stats_text, .sendText 2 (criticalText e)] r.logs 0 cOr
        | none =>
          match cOr.textFault with
          | none => deleteStep [st, .sendText 1 r.stats_text] r.logs 0 cOr
          | some e =>
            match cOr.criticalFault with
            | some e2 =>
              { trace := [st, .sendText 1 r.stats_text, .sendText 2 (criticalText e)],
                logs := r.logs, outcome := .error e2 }
            | none =>
              deleteStep [st, .sendText 1 r.stats_text, .sendText 2 (criticalText e)] r.logs 0 cOr

/-- Number of occurrences in a trace of the status-creation send: the
send with id 0 carrying the summoning text for `name` (line 91). -/
def statusCount (tr : List Effect) (name : String) : Nat :=
  (tr.filter (fun e => e = Effect.sendText 0 (summoningText name))).length

/-- Whether an effect is a `delete_message` call. -/
def isDelete : Effect → Bool
  | .delete _ => true
  | _ => false

/-- Number of `delete_message` attempts in a trace. -/
def deleteCount (tr : List Effect) : Nat := (tr.filter isDelete).length

/-- The image-generation path of `get_gemini_response` fails at some
point: the external call raises, or the response has no parts, or PNG
encoding raises. -/
def imageFailure (iOr : ImageOracle) (name element : String) : Prop :=
  match iOr.generate_content (imgPrompt name element) with
  | .error _ => True
  | .ok resp =>
    match resp.parts with
    | [] => True
    | p :: _ => ∃ e, p.image.savePNG = Except.error e

/-- Process environment as the startup code reads it: `os.getenv` returns
`none` when the variable is absent. -/
structure Env where
  GEMINI_API_KEY : Option String
  TELEGRAM_BOT_TOKEN : Option String

/-- Python falsiness of an `os.getenv` result: `None` or the empty
string. -/
def falsyStr : Option String → Bool
  | none => true
  | some s => s.isEmpty

/-- Outcome of the `__main__` block before any command is served. -/
inductive MainResult where
  | exited (msg : String) (code : Nat)
  | running
  deriving DecidableEq, Repr

/-- The startup diagnostic printed at line 111 of `bot.py`. -/
def missingEnvMsg : String :=
  "Error: Environment variables GEMINI_API_KEY or TELEGRAM_BOT_TOKEN are missing."

/-- Embedding of the `__main__` block (lines 109-119): if either secret
is falsy the process prints the diagnostic and exits with status 1;
otherwise it builds the application and starts polling. -/
def main_startup (env : Env) : MainResult :=
  if falsyStr env.GEMINI_API_KEY || falsyStr env.TELEGRAM_BOT_TOKEN then
    .exited missingEnvMsg 1
  else
    .running

/-- A chat oracle where every chat call succeeds. -/
def okChat : ChatOracle :=
  { usageFault := none, statusFault := none, awaitFault := none, photoFault := none,
    textFault := none, criticalFault := none, deleteFault := none }

/-- A text oracle returning a fixed payload on any prompt. -/
def toStub : TextOracle :=
  { generate_content := fun _ => .ok { text := "Name: Pyro\nElement: Fire\nRarity: Epic" } }

/-- A text oracle raising with message "timeout" on any prompt. -/
def toTimeout : TextOracle :=
  { generate_content := fun _ => .error "timeout" }

/-- An image oracle raising on any prompt. -/
def ioFail : ImageOracle :=
  { generate_content := fun _ => .error "quota exceeded" }

/-- An image oracle returning one valid, PNG-encodable artifact. -/
def ioOk : ImageOracle :=
  { generate_content := fun _ =>
      .ok { parts := [{ image := { savePNG := .ok [137, 80, 78, 71] } }] } }

theorem string_append_data (a b : String) : (a ++ b).data = a.data ++ b.data := by
  cases a
  cases b
  rfl

theorem deleteStep_trace (tr : List Effect) (lg : List String) (sid : Nat)
    (cOr : ChatOracle) : (deleteStep tr lg sid cOr).trace = tr ++ [.delete sid] := by
  cases h : cOr.deleteFault <;> simp [deleteStep, h]

theorem gemini_stats_ok (tOr : TextOracle) (iOr : ImageOracle)
    (name element rarity : String) (r : TxtResponse)
    (h : tOr.generate_content (mkPrompt name element rarity) = .ok r) :
    (get_gemini_response tOr iOr name element rarity).stats_text = r.text.trim := by
  simp [get_gemini_response, h]

theorem gemini_stats_error (tOr : TextOracle) (iOr : ImageOracle)
    (name element rarity : String) (d : String)
    (h : tOr.generate_content (mkPrompt name element rarity) = .error d) :
    (get_gemini_response tOr iOr name element rarity).stats_text =
      "Error generating text: " ++ d := by
  simp [get_gemini_response, h]

theorem gemini_img_none_of_failure (tOr : TextOracle) (iOr : ImageOracle)
    (name element rarity : String) (hif : imageFailure iOr name element) :
    (get_gemini_response tOr iOr name element rarity).img_bytes = none ∧
    (get_gemini_response tOr iOr name element rarity).logs ≠ [] := by
  unfold imageFailure at hif
  rcases hgc : iOr.generate_content (imgPrompt name element) with e | resp
  · simp [get_gemini_response, hgc]
  · rw [hgc] at hif
    rcases resp with ⟨parts⟩
    rcases parts with _ | ⟨p, rest⟩
    · simp [get_gemini_response, hgc]
    · simp only at hif
      rcases hif with ⟨e, he⟩
      simp [get_gemini_response, hgc, he]

/-- Claim C3: the Stats Generator Client returns the external call's
response text trimmed of surrounding whitespace on success, and on any
failure with detail `d` returns `"Error generating text: " ++ d`; being a
total function of the oracles, it never propagates the fault. -/
theorem stats_client_contract (tOr : TextOracle) (iOr : ImageOracle)
    (name element rarity : String) :
    (∀ r, tOr.generate_content (mkPrompt name element rarity) = .ok r →
      (get_gemini_response tOr iOr name element rarity).stats_text = r.text.trim) ∧
    (∀ d, tOr.generate_content (mkPrompt name element rarity) = .error d →
      (get_gemini_response tOr iOr name element rarity).stats_text =
        "Error generating text: " ++ d) :=
  ⟨fun r h => gemini_stats_ok tOr iOr name element rarity r h,
   fun d h => gemini_stats_error tOr iOr name element rarity d h⟩

/-- Claim C3 witness: a raise with message "timeout" yields exactly
`"Error generating text: timeout"`. -/
theorem stats_client_contract_witness :
    (get_gemini_response toTimeout ioOk "Pyro" "Fire" "Epic").stats_text =
      "Error generating text: " ++ "timeout" :=
  (stats_client_contract toTimeout ioOk "Pyro" "Fire" "Epic").2 "timeout" rfl

/-- The text preceding the rule table inside `SYSTEM_PROMPT`. -/
def promptPre : String :=
  "\nYou are a Monster Data Generator.\nInput: Name, Element, Rarity.\nRules:\n"

/-- The text following the rule table inside `SYSTEM_PROMPT`. -/
def promptPost : String :=
  "\n\nOutput Format (Strictly No Markdown/Brackets):\nName: \x7bName\x7d\nElement: \x7bElement\x7d\nRarity: \x7bRarity\x7d\nStats: \x7bHP\x7d \x7bATK\x7d \x7bDEF\x7d \x7bSPD\x7d\nMove 1: \x7bMove Name\x7d | \x7bPower\x7d | \x7bAccuracy\x7d\nMove 2: \x7bMove Name\x7d | \x7bPower\x7d | \x7bAccuracy\x7d\nMove 3: \x7bMove Name\x7d | \x7bPower\x7d | \x7bAccuracy\x7d\n"

set_option maxRecDepth 8192 in
theorem SYSTEM_PROMPT_split : SYSTEM_PROMPT = promptPre ++ ruleTable ++ promptPost := by
  rfl

/-- Claim C7: the Prompt Formatter is a pure string construction (a total
Lean function) whose output contains the three input values verbatim and
the fixed six-tier rule table unmodified, for all inputs. -/
theorem prompt_contains_inputs_and_rules (name element rarity : String) :
    (∃ a b, mkPrompt name element rarity = a ++ name ++ b) ∧
    (∃ a b, mkPrompt name element rarity = a ++ element ++ b) ∧
    (∃ a b, mkPrompt name element rarity = a ++ rarity ++ b) ∧
    (∃ a b, mkPrompt name element rarity = a ++ ruleTable ++ b) := by
  refine ⟨⟨SYSTEM_PROMPT ++ "\n\nUSER INPUT -> Name: ",
           ", Element: " ++ element ++ ", Rarity: " ++ rarity, ?_⟩,
          ⟨SYSTEM_PROMPT ++ "\n\nUSER INPUT -> Name: " ++ name ++ ", Element: ",
           ", Rarity: " ++ rarity, ?_⟩,
          ⟨SYSTEM_PROMPT ++ "\n\nUSER INPUT -> Name: " ++ name ++ ", Element: "
             ++ element ++ ", Rarity: ", "", ?_⟩,
          ⟨promptPre,
           promptPost ++ "\n\nUSER INPUT -> Name: " ++ name ++ ", Element: " ++ element
             ++ ", Rarity: " ++ rarity, ?_⟩⟩ <;>
    simp [mkPrompt, SYSTEM_PROMPT_split, String.append_assoc, String.append_empty]

/-- Claim C8: if either required secret is absent from the environment,
startup exits with the diagnostic message and status 1 (non-zero) before
the application is built or served. -/
theorem startup_missing_secret (env : Env)
    (h : env.GEMINI_API_KEY = none ∨ env.TELEGRAM_BOT_TOKEN = none) :
    main_startup env = .exited missingEnvMsg 1 ∧ (1 : Nat) ≠ 0 := by
  rcases h with h | h <;> simp [main_startup, falsyStr, h]

/-- Claim C8 witness: concrete environment missing the AI-service key. -/
theorem startup_missing_secret_witness :
    main_startup { GEMINI_API_KEY := none, TELEGRAM_BOT_TOKEN := some "t" } =
      .exited missingEnvMsg 1 ∧ (1 : Nat) ≠ 0 :=
  startup_missing_secret { GEMINI_API_KEY := none, TELEGRAM_BOT_TOKEN := some "t" }
    (Or.inl rfl)

theorem usage_ne_summoning (name : String) : usageText ≠ summoningText name := by
  intro h
  have h2 : usageText.data.head? = (summoningText name).data.head? := by rw [h]
  rw [show usageText.data.head? = some '⚠' from rfl] at h2
  unfold summoningText at h2
  rw [string_append_data, string_append_data] at h2
  rw [show ("⚡ Summoning " : String).data = '⚡' :: (" Summoning " : String).data from rfl] at h2
  simp at h2

/-- Claim C6: with fewer than three arguments (including an absent or
empty argument list) the handler replies with the usage warning only, and
its whole run is independent of both generator oracles — zero calls are
made to either generator client and no generation happens. -/
theorem usage_guard (args : Option (List String)) (cOr : ChatOracle)
    (tOr tOr2 : TextOracle) (iOr iOr2 : ImageOracle)
    (h : argsInvalid args = true) :
    (generate_command args cOr tOr iOr).trace = [.sendText 0 usageText] ∧
    generate_command args cOr tOr iOr = generate_command args cOr tOr2 iOr2 := by
  cases hu : cOr.usageFault <;> simp [generate_command, h, hu]

/-- Claim C6 witness: one argument only, with two different oracle
pairs. -/
theorem usage_guard_witness :
    (generate_command (some ["Pyro"]) okChat toStub ioFail).trace =
      [.sendText 0 usageText] ∧
    generate_command (some ["Pyro"]) okChat toStub ioFail =
      generate_command (some ["Pyro"]) okChat toTimeout ioOk :=
  usage_guard (some ["Pyro"]) okChat toStub toTimeout ioFail ioOk rfl

/-- Claim C10: on the usage-warning path no status notification is
created and no deletion is attempted — the trace is exactly the single
usage-warning reply. -/
theorem usage_no_status_no_delete (args : Option (List String)) (cOr : ChatOracle)
    (tOr : TextOracle) (iOr : ImageOracle) (h : argsInvalid args = true) :
    (generate_command args cOr tOr iOr).trace = [.sendText 0 usageText] ∧
    deleteCount (generate_command args cOr tOr iOr).trace = 0 ∧
    ∀ name, statusCount (generate_command args cOr tOr iOr).trace name = 0 := by
  have htr : (generate_command args cOr tOr iOr).trace = [.sendText 0 usageText] := by
    cases hu : cOr.usageFault <;> simp [generate_command, h, hu]
  refine ⟨htr, ?_, ?_⟩
  · rw [htr]; rfl
  · intro name
    rw [htr]
    simp [statusCount, List.filter, usage_ne_summoning name]

/-- Claim C10 witness: absent argument list. -/
theorem usage_no_status_no_delete_witness :
    (generate_command none okChat toStub ioFail).trace = [.sendText 0 usageText] ∧
    deleteCount (generate_command none okChat toStub ioFail).trace = 0 ∧
    ∀ name, statusCount (generate_command none okChat toStub ioFail).trace name = 0 :=
  usage_no_status_no_delete none okChat toStub ioFail rfl

theorem argsInvalid_cons (n e r : String) (rest : List String) :
    argsInvalid (some (n :: e :: r :: rest)) = false := by
  simp [argsInvalid]

/-- Claim C2: for every request with at least three arguments, on each of
the photo, text-only and critical-error branches (the status send and, on
the fault branches, the critical-error reply succeeding, so the branch
runs to the end of the handler), exactly one status notification is
created and exactly one attempt is made to delete it. -/
theorem status_once_delete_once (name element rarity : String) (rest : List String)
    (cOr : ChatOracle) (tOr : TextOracle) (iOr : ImageOracle)
    (hst : cOr.statusFault = none) (hcr : cOr.criticalFault = none) :
    statusCount (generate_command (some (name :: element :: rarity :: rest)) cOr tOr iOr).trace
      name = 1 ∧
    deleteCount (generate_command (some (name :: element :: rarity :: rest)) cOr tOr iOr).trace
      = 1 := by
  rcases haw : cOr.awaitFault with _ | e
  · rcases hib : (get_gemini_response tOr iOr name element rarity).img_bytes with _ | b
    · rcases htf : cOr.textFault with _ | e
      · simp [generate_command, argsInvalid_cons, hst, hcr, haw, hib, htf, deleteStep_trace,
              statusCount, deleteCount, isDelete, List.filter_append, List.filter_cons]
      · simp [generate_command, argsInvalid_cons, hst, hcr, haw, hib, htf, deleteStep_trace,
              statusCount, deleteCount, isDelete, List.filter_append, List.filter_cons]
    · rcases hpf : cOr.photoFault with _ | e
      · simp [generate_command, argsInvalid_cons, hst, hcr, haw, hib, hpf, deleteStep_trace,
              statusCount, deleteCount, isDelete, List.filter_append, List.filter_cons]
      · simp [generate_command, argsInvalid_cons, hst, hcr, haw, hib, hpf, deleteStep_trace,
              statusCount, deleteCount, isDelete, List.filter_append, List.filter_cons]
  · simp [generate_command, argsInvalid_cons, hst, hcr, haw, deleteStep_trace,
          statusCount, deleteCount, isDelete, List.filter_append, List.filter_cons]

/-- Claim C2 witness: a concrete three-argument request on the text-only
branch. -/
theorem status_once_delete_once_witness :
    statusCount (generate_command (some ["Pyro", "Fire", "Epic"]) okChat toStub ioFail).trace
      "Pyro" = 1 ∧
    deleteCount (generate_command (some ["Pyro", "Fire", "Epic"]) okChat toStub ioFail).trace
      = 1 :=
  status_once_delete_once "Pyro" "Fire" "Epic" [] okChat toStub ioFail rfl rfl

/-- Claim C5: when both generator results are available (the awaited call
returns and the reply transport does not fault), the handler sends
exactly one reply, shaped by image presence: a photo whose caption is the
stats text verbatim if an image is present, otherwise a plain text
message equal to the stats text; the full trace is the status send, that
one reply, and the status-deletion attempt. -/
theorem reply_shape (name element rarity : String) (rest : List String)
    (cOr : ChatOracle) (tOr : TextOracle) (iOr : ImageOracle)
    (hst : cOr.statusFault = none) (haw : cOr.awaitFault = none)
    (hp : cOr.photoFault = none) (ht : cOr.textFault = none) :
    ((get_gemini_response tOr iOr name element rarity).img_bytes ≠ none →
      (generate_command (some (name :: element :: rarity :: rest)) cOr tOr iOr).trace =
        [.sendText 0 (summoningText name),
         .sendPhoto 1 (get_gemini_response tOr iOr name element rarity).stats_text,
         .delete 0]) ∧
    ((get_gemini_response tOr iOr name element rarity).img_bytes = none →
      (generate_command (some (name :: element :: rarity :: rest)) cOr tOr iOr).trace =
        [.sendText 0 (summoningText name),
         .sendText 1 (get_gemini_response tOr iOr name element rarity).stats_text,
         .delete 0]) := by
  constructor
  · intro him
    rcases hib : (get_gemini_response tOr iOr name element rarity).img_bytes with _ | b
    · exact absurd hib him
    · simp [generate_command, argsInvalid_cons, hst, haw, hib, hp, deleteStep_trace]
  · intro him
    simp [generate_command, argsInvalid_cons, hst, haw, him, ht, deleteStep_trace]

/-- Claim C5 witness: stubbed text and a valid image artifact yield the
single photo reply captioned with the stats text. -/
theorem reply_shape_witness :
    (generate_command (some ["Pyro", "Fire", "Epic"]) okChat toStub ioOk).trace =
      [.sendText 0 (summoningText "Pyro"),
       .sendPhoto 1 (get_gemini_response toStub ioOk "Pyro" "Fire" "Epic").stats_text,
       .delete 0] :=
  (reply_shape "Pyro" "Fire" "Epic" [] okChat toStub ioOk rfl rfl rfl rfl).1 (by decide)

/-- Claim C4: when the image path fails at any point (external call
raises, no artifact in the response, or PNG encoding fails), the
ImageResult is absent, an operator log line is emitted, and the handler
still sends exactly one text-only reply equal to the stats text — the
trace is the status send, that reply and the status-deletion attempt, so
the image failure is never surfaced to the user. -/
theorem image_fail_text_only (name element rarity : String) (rest : List String)
    (cOr : ChatOracle) (tOr : TextOracle) (iOr : ImageOracle)
    (hst : cOr.statusFault = none) (haw : cOr.awaitFault = none)
    (ht : cOr.textFault = none) (hif : imageFailure iOr name element) :
    (get_gemini_response tOr iOr name element rarity).img_bytes = none ∧
    (get_gemini_response tOr iOr name element rarity).logs ≠ [] ∧
    (generate_command (some (name :: element :: rarity :: rest)) cOr tOr iOr).trace =
      [.sendText 0 (summoningText name),
       .sendText 1 (get_gemini_response tOr iOr name element rarity).stats_text,
       .delete 0] := by
  obtain ⟨h1, h2⟩ := gemini_img_none_of_failure tOr iOr name element rarity hif
  exact ⟨h1, h2,
    by simp [generate_command, argsInvalid_cons, hst, haw, h1, ht, deleteStep_trace]⟩

/-- Claim C4 witness: an image oracle that raises, with a stubbed text
oracle. -/
theorem image_fail_text_only_witness :
    (get_gemini_response toStub ioFail "Pyro" "Fire" "Epic").img_bytes = none ∧
    (get_gemini_response toStub ioFail "Pyro" "Fire" "Epic").logs ≠ [] ∧
    (generate_command (some ["Pyro", "Fire", "Epic"]) okChat toStub ioFail).trace =
      [.sendText 0 (summoningText "Pyro"),
       .sendText 1 (get_gemini_response toStub ioFail "Pyro" "Fire" "Epic").stats_text,
       .delete 0] :=
  image_fail_text_only "Pyro" "Fire" "Epic" [] okChat toStub ioFail rfl rfl rfl
    (by trivial)

/-- Claim C9: a text-generation failure does not suppress the image
attempt: when the text call raises with detail `d` and the image path
succeeds, the handler sends exactly one photo reply whose caption is the
error string, not a plain text error reply. -/
theorem text_fail_photo_caption (name element rarity : String) (rest : List String)
    (cOr : ChatOracle) (tOr : TextOracle) (iOr : ImageOracle) (d : String)
    (hst : cOr.statusFault = none) (haw : cOr.awaitFault = none)
    (hp : cOr.photoFault = none)
    (htx : tOr.generate_content (mkPrompt name element rarity) = .error d)
    (him : (get_gemini_response tOr iOr name element rarity).img_bytes ≠ none) :
    (generate_command (some (name :: element :: rarity :: rest)) cOr tOr iOr).trace =
      [.sendText 0 (summoningText name),
       .sendPhoto 1 ("Error generating text: " ++ d),
       .delete 0] := by
  have hs := gemini_stats_error tOr iOr name element rarity d htx
  rcases hib : (get_gemini_response tOr iOr name element rarity).img_bytes with _ | b
  · exact absurd hib him
  · simp [generate_command, argsInvalid_cons, hst, haw, hib, hp, deleteStep_trace, hs]

/-- Claim C9 witness: text oracle raising "timeout" with a valid image
artifact yields the photo reply captioned with the error string. -/
theorem text_fail_photo_caption_witness :
    (generate_command (some ["Pyro", "Fire", "Epic"]) okChat toTimeout ioOk).trace =
      [.sendText 0 (summoningText "Pyro"),
       .sendPhoto 1 ("Error generating text: " ++ "timeout"),
       .delete 0] :=
  text_fail_photo_caption "Pyro" "Fire" "Epic" [] okChat toTimeout ioOk "timeout"
    rfl rfl rfl rfl (by decide)

/-- A chat oracle whose `delete_message` call raises, as when the status
message is already gone. -/
def coDel : ChatOracle := { okChat with deleteFault := some "message to delete not found" }

set_option maxRecDepth 8192 in
/-- Claim C1 counterexample: on the concrete request `/generate Pyro Fire
Epic` whose status-message deletion raises "message to delete not found",
the exception is NOT caught and ignored: the handler's outcome is that
very error, not success — the deletion failure is rethrown to the
handler's caller, refuting the claim as stated. -/
theorem delete_fault_rethrown :
    (generate_command (some ["Pyro", "Fire", "Epic"]) coDel toStub ioFail).outcome =
      Except.error "message to delete not found" ∧
    ¬ (generate_command (some ["Pyro", "Fire", "Epic"]) coDel toStub ioFail).outcome =
      Except.ok () := by
  refine ⟨rfl, ?_⟩
  intro hcontra
  rw [show (generate_command (some ["Pyro", "Fire", "Epic"]) coDel toStub ioFail).outcome =
      Except.error "message to delete not found" from rfl] at hcontra
  exact Except.noConfusion hcontra

/-- Claim C1 amended: a failure of the status-message deletion is not
caught — the exception propagates out of the handler to its caller — but
it is not reported to the user and does not change what was sent: the
attempted chat calls are exactly those of a run whose deletion succeeds,
and the deletion attempt is the last action of the run, after the reply
has already been sent. -/
theorem delete_fault_propagates (name element rarity : String) (rest : List String)
    (cOr : ChatOracle) (tOr : TextOracle) (iOr : ImageOracle) (e : String)
    (hst : cOr.statusFault = none) (hcr : cOr.criticalFault = none)
    (hd : cOr.deleteFault = some e) :
    (generate_command (some (name :: element :: rarity :: rest)) cOr tOr iOr).outcome =
      Except.error e ∧
    (generate_command (some (name :: element :: rarity :: rest)) cOr tOr iOr).trace =
      (generate_command (some (name :: element :: rarity :: rest))
        { cOr with deleteFault := none } tOr iOr).trace ∧
    (generate_command (some (name :: element :: rarity :: rest)) cOr tOr iOr).trace.getLast?
      = some (Effect.delete 0) := by
  rcases haw : cOr.awaitFault with _ | e2
  · rcases hib : (get_gemini_response tOr iOr name element rarity).img_bytes with _ | b
    · rcases htf : cOr.textFault with _ | e3
      · simp [generate_command, argsInvalid_cons, hst, hcr, hd, haw, hib, htf, deleteStep,
              List.getLast?_append_cons]
      · simp [generate_command, argsInvalid_cons, hst, hcr, hd, haw, hib, htf, deleteStep,
              List.getLast?_append_cons]
    · rcases hpf : cOr.photoFault with _ | e3
      · simp [generate_command, argsInvalid_cons, hst, hcr, hd, haw, hib, hpf, deleteStep,
              List.getLast?_append_cons]
      · simp [generate_command, argsInvalid_cons, hst, hcr, hd, haw, hib, hpf, deleteStep,
              List.getLast?_append_cons]
  · simp [generate_command, argsInvalid_cons, hst, hcr, hd, haw, deleteStep,
          List.getLast?_append_cons]

/-- Claim C1 amended witness: the concrete failing-deletion run. -/
theorem delete_fault_propagates_witness :
    (generate_command (some ["Pyro", "Fire", "Epic"]) coDel toStub ioFail).outcome =
      Except.error "message to delete not found" ∧
    (generate_command (some ["Pyro", "Fire", "Epic"]) coDel toStub ioFail).trace =
      (generate_command (some ["Pyro", "Fire", "Epic"])
        { coDel with deleteFault := none } toStub ioFail).trace ∧
    (generate_command (some ["Pyro", "Fire", "Epic"]) coDel toStub ioFail).trace.getLast?
      = some (Effect.delete 0) :=
  delete_fault_propagates "Pyro" "Fire" "Epic" [] coDel toStub ioFail
    "message to delete not found" rfl rfl rfl
